import Mathlib

/-!
Shallow embedding of the Equinox Racing bot (src/bot/equinox_race_bot.py and
src/bot/server.py) and proofs about its decision logic, decoders and
health endpoint.

Conventions of the embedding:
* JSON values returned by the chain's view interface are modelled by the
  inductive `JValue`.
* Python truthiness, `len()`, `int()` conversion, `str()` rendering and
  subscripting are modelled explicitly (`pyTruthy`, `pyLen`, `pyInt`, ...),
  each returning `Option` where the Python operation can raise.
* Wall-clock reads (`time.time()`, `int(time.time() * 1_000_000)`) are
  passed in as explicit integer parameters.
* The chain client's fallible calls (view queries, transaction
  submit/confirm) are modelled as explicit `Option`/`Except`/`Bool`
  parameters standing for the outcome of the awaited call; a raised
  exception corresponds to the failure constructor.
* `self.last_advance_time` (a Python `Dict[int, float]`) is modelled as an
  association list read through `List.lookup`; dict assignment is modelled
  by prepending the new binding, which is observationally the same through
  `List.lookup` (first match wins).
-/

set_option autoImplicit false

/-- JSON-like values produced by parsing a view response. -/
inductive JValue where
  | jnull
  | jbool (b : Bool)
  | jint (n : Int)
  | jstr (s : String)
  | jlist (elems : List JValue)
  | jdict (fields : List (String × JValue))

/-- Python truthiness of a JSON value (`bool(x)` / `if x:`). -/
def pyTruthy : JValue → Bool
  | .jnull => false
  | .jbool b => b
  | .jint n => n != 0
  | .jstr s => s.length != 0
  | .jlist l => l.length != 0
  | .jdict fs => fs.length != 0

/-- Python `len(x)`: defined on lists, strings and dicts, raises `TypeError`
(modelled as `none`) on other values. -/
def pyLen : JValue → Option Nat
  | .jlist l => some l.length
  | .jstr s => some s.length
  | .jdict fs => some fs.length
  | _ => none

/-- Python `int(str)` restricted to what the bot can meet: optional
whitespace, an optional sign, then decimal digits. -/
def pyIntOfStr (s : String) : Option Int :=
  let t := s.trim
  let t2 := if t.front = '+' then t.drop 1 else t
  t2.toInt?

/-- Python `int(x)`: identity on ints, 0/1 on bools, decimal parse on
strings, raises (modelled as `none`) on null, lists and dicts. -/
def pyInt : JValue → Option Int
  | .jbool b => some (if b then 1 else 0)
  | .jint n => some n
  | .jstr s => pyIntOfStr s
  | _ => none

/-- Python `str(x)` as far as the bot needs it (the rendering of composite
values is never inspected by any decision, so it is abbreviated). -/
def pyStr : JValue → String
  | .jnull => "None"
  | .jbool true => "True"
  | .jbool false => "False"
  | .jint n => toString n
  | .jstr s => s
  | .jlist _ => "<list>"
  | .jdict _ => "<dict>"

/-- Python `x[0]` on a JSON value: first element of a list, first character
of a string; raises (modelled as `none`) on an empty list or string, on a
dict (JSON dict keys are strings, so integer subscription is a `KeyError`)
and on scalars (`TypeError`). -/
def pySubscriptZero : JValue → Option JValue
  | .jlist (x :: _) => some x
  | .jstr s =>
    match s.toList with
    | c :: _ => some (.jstr (String.mk [c]))
    | [] => none
  | _ => none

/-- Python `[int(r) for r in xs]`: iterates lists, strings (by character)
and dicts (by key); `none` models a raised `TypeError` (not iterable) or a
failed `int()` conversion of any element. -/
def pyIterToInts : JValue → Option (List Int)
  | .jlist l => l.mapM pyInt
  | .jstr s => s.toList.mapM (fun c => pyInt (.jstr (String.mk [c])))
  | .jdict fs => fs.mapM (fun p => pyInt (.jstr p.1))
  | _ => none

/-- Python tuple unpacking `(a1, ..., a13) = x`: succeeds exactly when `x`
is a sized iterable of exactly 13 elements (list of values, string of
characters, dict of keys); any other length raises `ValueError`
(modelled as `none`). -/
def pyUnpack13 : JValue → Option (List JValue)
  | .jlist l => if l.length = 13 then some l else none
  | .jstr s =>
    if s.length = 13 then some (s.toList.map (fun c => JValue.jstr (String.mk [c]))) else none
  | .jdict fs =>
    if fs.length = 13 then some (fs.map (fun p => JValue.jstr p.1)) else none
  | _ => none

/-- Truthiness of a Python `Optional[int]`: `None` and `0` are falsy. -/
def pyOptIntTruthy : Option Int → Bool
  | none => false
  | some n => n != 0

/-- The `vec` key of the Aptos JSON encoding of `Option<u64>`. -/
def vecKey : String := "vec"

/-- Mirrors the `RaceState` dataclass of `equinox_race_bot.py`. -/
structure RaceState where
  race_id : Int
  race_started : Bool
  race_finished : Bool
  race_type : Int
  current_round : Int
  entries_count : Nat
  start_time : Option Int := none
  creator : Option String := none
deriving DecidableEq

/-- Module constant `RACE_ADVANCE_COOLDOWN` (default 8 seconds). -/
def RACE_ADVANCE_COOLDOWN : Int := 8

/-- The bot's `self.last_advance_time : Dict[int, float]`, read through
`List.lookup` with Python's `dict.get(race_id, 0)` semantics. -/
abbrev CooldownTable : Type := List (Int × Int)

/-- Mirrors `EquinoxRaceBot._parse_option_u64`: parse an Aptos
`Option<u64>` JSON value into an integer or `none`; every failure path
(non-dict input, missing `vec` key, falsy or non-list `vec`, empty `vec`,
element on which `int()` raises) yields `none` via the enclosing
`try`/`except`. -/
def parse_option_u64 (opt : JValue) : Option Int :=
  match opt with
  | .jdict fs =>
    match fs.lookup vecKey with
    | some v =>
      let vec := if pyTruthy v then v else JValue.jlist []
      match vec with
      | .jlist (x :: _) => pyInt x
      | _ => none
    | none => none
  | _ => none

/-- Mirrors `EquinoxRaceBot.get_active_races`'s `try` block body. The
argument is the value `_view_json` returned (`none` when JSON parsing
failed inside `_view_json`); `Except.error ()` models an exception raised
inside the block (bad subscription, failed iteration or `int()`
conversion). -/
def get_active_races_body (response : Option JValue) : Except Unit (List Int) :=
  let race_ids : Except Unit JValue :=
    match response with
    | some v =>
      if pyTruthy v then
        match pySubscriptZero v with
        | some x => Except.ok x
        | none => Except.error ()
      else Except.ok (JValue.jlist [])
    | none => Except.ok (JValue.jlist [])
  match race_ids with
  | .error e => Except.error e
  | .ok ids =>
    match pyIterToInts ids with
    | some l => Except.ok l
    | none => Except.error ()

/-- Mirrors `EquinoxRaceBot.get_active_races`. The argument models the
awaited `_view_json` call: `Except.error ()` is a transport exception
raised by the underlying client (propagating out of `_view_json`),
`Except.ok resp` is its returned value. Every exception is caught by the
`except` clause, which returns the empty list. -/
def get_active_races (view_result : Except Unit (Option JValue)) : List Int :=
  match view_result with
  | .error _ => []
  | .ok response =>
    match get_active_races_body response with
    | .ok l => l
    | .error _ => []

/-- Mirrors `EquinoxRaceBot.get_race_state`. The argument models the
awaited `_view_json` call result (`none` when the view response could not
be fetched or parsed). Follows the source exactly: the
`not response or len(response) < 13` guard (where `len` raises on unsized
values and the raise is caught), then 13-name tuple unpacking (raising on
any other arity), then the field conversions, any of whose failures is
caught by the enclosing `try`/`except` and yields `none`. -/
def get_race_state (race_id : Int) (response : Option JValue) : Option RaceState :=
  match response with
  | none => none
  | some resp =>
    if !pyTruthy resp then none
    else
      match pyLen resp with
      | none => none
      | some n =>
        if n < 13 then none
        else
          match pyUnpack13 resp with
          | none => none
          | some fields =>
            match fields with
            | [_id, creator, race_type, race_started, race_finished, current_round,
               _horses, entries, _track, _total_bet_pool, _entry_fee_pool,
               start_time_opt, _betting_end_time_opt] =>
              let start_time := parse_option_u64 start_time_opt
              let entries_count := match entries with
                                   | .jlist l => l.length
                                   | _ => 0
              match pyInt race_type, pyInt current_round with
              | some rt, some cr =>
                some { race_id := race_id
                       race_started := pyTruthy race_started
                       race_finished := pyTruthy race_finished
                       race_type := rt
                       current_round := cr
                       entries_count := entries_count
                       start_time := start_time
                       creator := match creator with
                                  | .jnull => none
                                  | c => some (pyStr c) }
              | _, _ => none
            | _ => none

/-- Mirrors `EquinoxRaceBot.should_advance_race`. `now` is the value of
`time.time()` at the cooldown check. -/
def should_advance_race (race_state : RaceState) (last_advance_time : CooldownTable)
    (now : Int) : Bool :=
  if !race_state.race_started || race_state.race_finished then false
  else
    let last := (List.lookup race_state.race_id last_advance_time).getD 0
    if now - last < RACE_ADVANCE_COOLDOWN then false
    else true

/-- Mirrors `EquinoxRaceBot.can_execute_quick_race`. `current_time_us` is
the value of `int(time.time() * 1_000_000)` computed inside the function.
Note the source's `not race_state.start_time` uses Python truthiness, so
both `None` and `0` fail the presence check. -/
def can_execute_quick_race (race_state : RaceState) (current_time_us : Int) : Bool :=
  if race_state.race_type != 1 then false
  else if race_state.race_started || !pyOptIntTruthy race_state.start_time then false
  else
    match race_state.start_time with
    | some t => decide (t ≤ current_time_us)
    | none => false

/-- Mirrors `EquinoxRaceBot.advance_race`. `submit_ok` is the outcome of
the awaited build/sign/submit/confirm sequence inside the `try` block
(`false` models an exception raised anywhere in it, caught by the `except`
clause). `now` is `time.time()` at the recording point. Returns the
function's boolean result together with the resulting
`self.last_advance_time` table; the write
`self.last_advance_time[race_id] = time.time()` executes only after the
submission and confirmation succeeded. -/
def advance_race (submit_ok : Bool) (last_advance_time : CooldownTable)
    (race_id : Int) (now : Int) : Bool × CooldownTable :=
  if submit_ok then (true, (race_id, now) :: last_advance_time)
  else (false, last_advance_time)

/-- The two transaction kinds `process_race` can dispatch. -/
inductive BotAction where
  | advance
  | executeQuick
deriving DecidableEq

/-- Mirrors the decision structure of `EquinoxRaceBot.process_race`:
which transaction (if any) is dispatched for the fetched state.
`race_state` is the result of `get_race_state`; `now_s` is `time.time()`
as read inside `should_advance_race` and `now_us` the microsecond clock
read inside `can_execute_quick_race`. -/
def process_race (race_state : Option RaceState) (last_advance_time : CooldownTable)
    (now_s : Int) (now_us : Int) : Option BotAction :=
  match race_state with
  | none => none
  | some s =>
    if should_advance_race s last_advance_time now_s then some BotAction.advance
    else if can_execute_quick_race s now_us then some BotAction.executeQuick
    else none

/-- The observable state of the bot's background `asyncio.Task` in
`server.py`: `done` is `task.done()`, true once the task finished,
crashed or was cancelled. -/
structure BotTask where
  done : Bool
deriving DecidableEq

/-- The JSON object returned by the `/health` endpoint. -/
structure HealthResponse where
  ok : Bool
  bot_running : Bool
  contract_address : String
deriving DecidableEq

/-- Mirrors the `health` handler of `server.py`:
`bool(runner.task and not runner.task.done())` — `runner.task` is `None`
before `start` ran, so the conjunction short-circuits to a falsy value. -/
def health (task : Option BotTask) (contract_address : String) : HealthResponse :=
  { ok := true
    bot_running := match task with
                   | some t => !t.done
                   | none => false
    contract_address := contract_address }

/-! ### Helper lemmas shared between the claim theorems -/

lemma can_execute_quick_iff (s : RaceState) (now : Int) :
    can_execute_quick_race s now = true ↔
      s.race_type = 1 ∧ s.race_started = false ∧
      ∃ t, s.start_time = some t ∧ t ≠ 0 ∧ t ≤ now := by
  unfold can_execute_quick_race
  cases hst : s.start_time with
  | none =>
    simp [pyOptIntTruthy, hst]
  | some t =>
    by_cases hty : s.race_type = 1 <;>
      cases hs : s.race_started <;>
        simp [pyOptIntTruthy, hst, hty, hs]

lemma should_advance_iff (s : RaceState) (tbl : CooldownTable) (now : Int) :
    should_advance_race s tbl now = true ↔
      s.race_started = true ∧ s.race_finished = false ∧
      RACE_ADVANCE_COOLDOWN ≤ now - (List.lookup s.race_id tbl).getD 0 := by
  unfold should_advance_race
  cases hs : s.race_started <;> cases hf : s.race_finished <;>
    simp [hs, hf]

lemma lookup_advance_self (tbl : CooldownTable) (id T : Int) :
    List.lookup id (advance_race true tbl id T).2 = some T := by
  simp [advance_race, List.lookup]

lemma lookup_advance_other (tbl : CooldownTable) (id T k : Int) (h : k ≠ id) :
    List.lookup k (advance_race true tbl id T).2 = List.lookup k tbl := by
  have hb : (k == id) = false := by simpa using h
  simp [advance_race, List.lookup, hb]

/-! ### Claim theorems -/

/-- C1 counterexample: a `RaceState` with `race_finished = true` on which
`can_execute_quick_race` nevertheless returns `true` (the function never
inspects `race_finished`), refuting the claim that both eligibility
predicates return `false` for every finished race regardless of the other
fields. -/
theorem finished_quick_race_still_executes :
    RaceState.race_finished
      { race_id := 2, race_started := false, race_finished := true, race_type := 1,
        current_round := 0, entries_count := 0, start_time := some 5,
        creator := none } = true ∧
    can_execute_quick_race
      { race_id := 2, race_started := false, race_finished := true, race_type := 1,
        current_round := 0, entries_count := 0, start_time := some 5,
        creator := none } 10 = true := by
  decide

/-- C1 (amended): for every `RaceState` with `race_finished = true`,
`should_advance_race` returns `false` regardless of all other fields;
`can_execute_quick_race` does not inspect `race_finished`, and for a
finished race it returns `false` whenever `race_started` is also `true`. -/
theorem finished_race_rejected (s : RaceState) (tbl : CooldownTable)
    (now_s now_us : Int) (hfin : s.race_finished = true) :
    should_advance_race s tbl now_s = false ∧
    (s.race_started = true → can_execute_quick_race s now_us = false) := by
  constructor
  · simp [should_advance_race, hfin]
  · intro hst
    unfold can_execute_quick_race
    simp [hst]

/-- Witness for C1's amended theorem at a concrete finished, started
race. -/
theorem finished_race_rejected_witness :
    should_advance_race
      { race_id := 9, race_started := true, race_finished := true, race_type := 0,
        current_round := 1, entries_count := 2, start_time := none,
        creator := none } [] 100 = false ∧
    can_execute_quick_race
      { race_id := 9, race_started := true, race_finished := true, race_type := 0,
        current_round := 1, entries_count := 2, start_time := none,
        creator := none } 100 = false :=
  ⟨(finished_race_rejected _ [] 100 100 rfl).1,
   (finished_race_rejected
      { race_id := 9, race_started := true, race_finished := true, race_type := 0,
        current_round := 1, entries_count := 2, start_time := none,
        creator := none } [] 100 100 rfl).2 rfl⟩

/-- C2 counterexample: a quick race whose `start_time` is present with
value `0` and a current time past it; the claim predicts `true`, but the
code's Python truthiness test `not race_state.start_time` treats the
present value `0` as absent, so the function returns `false`. -/
theorem quick_race_zero_start_time_rejected :
    can_execute_quick_race
      { race_id := 3, race_started := false, race_finished := false, race_type := 1,
        current_round := 0, entries_count := 0, start_time := some 0,
        creator := none } 7 = false := by
  decide

/-- C2 (amended): `can_execute_quick_race` returns `true` iff
`race_type = 1`, `race_started` is `false`, `start_time` is present with a
nonzero value `t`, and the current microsecond time is at least `t`. -/
theorem can_execute_quick_race_spec (s : RaceState) (now : Int) :
    can_execute_quick_race s now = true ↔
      s.race_type = 1 ∧ s.race_started = false ∧
      ∃ t, s.start_time = some t ∧ t ≠ 0 ∧ t ≤ now :=
  can_execute_quick_iff s now

/-- C6 counterexample: with `start_time` present with value `S = 0`, the
claim predicts `can_execute_quick_race` is `true` for every `now ≥ S`, but
the code returns `false` at `now = 0` (and at every other time), because
Python truthiness discards the present value `0`. -/
theorem quick_race_threshold_zero_counterexample :
    can_execute_quick_race
      { race_id := 4, race_started := false, race_finished := false, race_type := 1,
        current_round := 0, entries_count := 0, start_time := some 0,
        creator := none } 0 = false := by
  decide

/-- C6 (amended): for a fixed quick-race state with `race_started = false`
and `start_time` present with a positive value `S`, the trigger is
monotonic in time: `can_execute_quick_race` is `false` for every
`now < S` and `true` for every `now ≥ S` — a single threshold crossing.
For `S = 0` the predicate is instead constantly `false`. -/
theorem quick_race_trigger_monotone (s : RaceState) (S now : Int)
    (hty : s.race_type = 1) (hstart : s.race_started = false)
    (hS : s.start_time = some S) (hpos : 0 < S) :
    (now < S → can_execute_quick_race s now = false) ∧
    (S ≤ now → can_execute_quick_race s now = true) := by
  constructor
  · intro hlt
    rcases h : can_execute_quick_race s now with _ | _
    · rfl
    · exfalso
      rcases (can_execute_quick_iff s now).mp h with ⟨_, _, t, ht, _, hle⟩
      rw [hS] at ht
      injection ht with ht
      omega
  · intro hge
    exact (can_execute_quick_iff s now).mpr
      ⟨hty, hstart, S, hS, by omega, hge⟩

/-- Witness for C6's amended theorem at a concrete quick race with
`start_time = 5`: not triggered at time 3, triggered at time 6. -/
theorem quick_race_trigger_monotone_witness :
    can_execute_quick_race
      { race_id := 5, race_started := false, race_finished := false, race_type := 1,
        current_round := 0, entries_count := 0, start_time := some 5,
        creator := none } 3 = false ∧
    can_execute_quick_race
      { race_id := 5, race_started := false, race_finished := false, race_type := 1,
        current_round := 0, entries_count := 0, start_time := some 5,
        creator := none } 6 = true :=
  ⟨(quick_race_trigger_monotone _ 5 3 rfl rfl rfl (by decide)).1 (by decide),
   (quick_race_trigger_monotone
      { race_id := 5, race_started := false, race_finished := false, race_type := 1,
        current_round := 0, entries_count := 0, start_time := some 5,
        creator := none } 5 6 rfl rfl rfl (by decide)).2 (by decide)⟩

/-- C3: `should_advance_race` returns `true` iff the race is started and
not finished and at least `RACE_ADVANCE_COOLDOWN` seconds have passed
since the cooldown table's entry for this race (0 when absent); and after
a successful advance recorded at time `T`, it returns `false` for every
`now` in `[T, T + RACE_ADVANCE_COOLDOWN)` and `true` for every
`now ≥ T + RACE_ADVANCE_COOLDOWN` (given started and not finished). -/
theorem should_advance_race_spec (s : RaceState) (tbl : CooldownTable) (now : Int) :
    (should_advance_race s tbl now = true ↔
      s.race_started = true ∧ s.race_finished = false ∧
      RACE_ADVANCE_COOLDOWN ≤ now - (List.lookup s.race_id tbl).getD 0) ∧
    (∀ T now2, T ≤ now2 → now2 < T + RACE_ADVANCE_COOLDOWN →
      should_advance_race s (advance_race true tbl s.race_id T).2 now2 = false) ∧
    (∀ T now2, T + RACE_ADVANCE_COOLDOWN ≤ now2 →
      s.race_started = true → s.race_finished = false →
      should_advance_race s (advance_race true tbl s.race_id T).2 now2 = true) := by
  refine ⟨should_advance_iff s tbl now, ?_, ?_⟩
  · intro T now2 hT hlt
    rcases h : should_advance_race s (advance_race true tbl s.race_id T).2 now2 with _ | _
    · rfl
    · exfalso
      rcases (should_advance_iff s _ now2).mp h with ⟨_, _, hcool⟩
      rw [lookup_advance_self] at hcool
      simp [Option.getD] at hcool
      omega
  · intro T now2 hge hst hfin
    refine (should_advance_iff s _ now2).mpr ⟨hst, hfin, ?_⟩
    rw [lookup_advance_self]
    simp [Option.getD]
    omega

/-- Witness for C3 at a concrete started, unfinished race: advance
recorded at time 100, rate-limited at time 103, allowed again at 108, and
the basic characterisation at time 50 over an empty table. -/
theorem should_advance_race_spec_witness :
    should_advance_race
      { race_id := 1, race_started := true, race_finished := false, race_type := 0,
        current_round := 0, entries_count := 0, start_time := none, creator := none }
      (advance_race true [] 1 100).2 103 = false ∧
    should_advance_race
      { race_id := 1, race_started := true, race_finished := false, race_type := 0,
        current_round := 0, entries_count := 0, start_time := none, creator := none }
      (advance_race true [] 1 100).2 108 = true :=
  ⟨(should_advance_race_spec
      { race_id := 1, race_started := true, race_finished := false, race_type := 0,
        current_round := 0, entries_count := 0, start_time := none, creator := none }
      [] 0).2.1 100 103 (by decide) (by decide),
   (should_advance_race_spec
      { race_id := 1, race_started := true, race_finished := false, race_type := 0,
        current_round := 0, entries_count := 0, start_time := none, creator := none }
      [] 0).2.2 100 108 (by decide) rfl rfl⟩

/-- C4: `process_race` dispatches at most one transaction, with advance
taking priority: it dispatches `advance` exactly when the state is present
and `should_advance_race` holds; it dispatches `executeQuick` exactly when
the state is present, `should_advance_race` fails and
`can_execute_quick_race` holds; and it is a no-op exactly when the state
is absent or both predicates fail. -/
theorem process_race_dispatch (st : Option RaceState) (tbl : CooldownTable)
    (now_s now_us : Int) :
    (process_race st tbl now_s now_us = some BotAction.advance ↔
      ∃ s, st = some s ∧ should_advance_race s tbl now_s = true) ∧
    (process_race st tbl now_s now_us = some BotAction.executeQuick ↔
      ∃ s, st = some s ∧ should_advance_race s tbl now_s = false ∧
        can_execute_quick_race s now_us = true) ∧
    (process_race st tbl now_s now_us = none ↔
      st = none ∨ ∃ s, st = some s ∧ should_advance_race s tbl now_s = false ∧
        can_execute_quick_race s now_us = false) := by
  cases st with
  | none => simp [process_race]
  | some s =>
    by_cases ha : should_advance_race s tbl now_s = true
    · simp [process_race, ha]
    · rw [Bool.not_eq_true] at ha
      by_cases hq : can_execute_quick_race s now_us = true
      · simp [process_race, ha, hq]
      · rw [Bool.not_eq_true] at hq
        simp [process_race, ha, hq]

/-- C5: `advance_race` records the current time in the cooldown table for
this race only when the submit/confirm sequence succeeded; on any failure
it returns `false` and leaves the table completely unchanged, and on
success it returns `true`, maps this race's id to the recording time and
leaves every other id's entry unchanged. -/
theorem advance_race_cooldown_discipline (tbl : CooldownTable) (race_id now : Int) :
    advance_race false tbl race_id now = (false, tbl) ∧
    (advance_race true tbl race_id now).1 = true ∧
    List.lookup race_id (advance_race true tbl race_id now).2 = some now ∧
    (∀ k, k ≠ race_id →
      List.lookup k (advance_race true tbl race_id now).2 = List.lookup k tbl) := by
  refine ⟨rfl, rfl, lookup_advance_self tbl race_id now, ?_⟩
  intro k hk
  exact lookup_advance_other tbl race_id now k hk

/-- Witness for C5 at a concrete table: failure leaves the table `[(3, 1)]`
untouched; success records time 12 for race 5 and leaves race 3's entry
as it was. -/
theorem advance_race_cooldown_discipline_witness :
    advance_race false [(3, 1)] 5 12 = (false, [(3, 1)]) ∧
    List.lookup 5 (advance_race true [(3, 1)] 5 12).2 = some 12 ∧
    List.lookup 3 (advance_race true [(3, 1)] 5 12).2 = List.lookup 3 [(3, 1)] :=
  ⟨(advance_race_cooldown_discipline [(3, 1)] 5 12).1,
   (advance_race_cooldown_discipline [(3, 1)] 5 12).2.2.1,
   (advance_race_cooldown_discipline [(3, 1)] 5 12).2.2.2 3 (by decide)⟩

lemma pyUnpack13_pyLen (v : JValue) (l : List JValue) (h : pyUnpack13 v = some l) :
    pyLen v = some 13 := by
  cases v <;> simp [pyUnpack13] at h <;> simp [pyLen, h.1]

/-- C7: `get_race_state` yields `none` whenever the view response is
missing, unsized, or has fewer than the expected 13 fields, and a
`RaceState` is only ever constructed from a response of full arity 13. -/
theorem get_race_state_decode_robust (race_id : Int) (resp : Option JValue) :
    (resp = none → get_race_state race_id resp = none) ∧
    (∀ v, resp = some v → pyLen v = none → get_race_state race_id resp = none) ∧
    (∀ v n, resp = some v → pyLen v = some n → n < 13 →
      get_race_state race_id resp = none) ∧
    (∀ s, get_race_state race_id resp = some s →
      ∃ v, resp = some v ∧ pyLen v = some 13) := by
  refine ⟨?_, ?_, ?_, ?_⟩
  · intro h
    rw [h]
    rfl
  · intro v hv hlen
    subst hv
    by_cases ht : pyTruthy v = true <;> simp [get_race_state, ht, hlen]
  · intro v n hv hlen hlt
    subst hv
    by_cases ht : pyTruthy v = true <;> simp [get_race_state, ht, hlen, hlt]
  · intro s h
    cases resp with
    | none => simp [get_race_state] at h
    | some v =>
      refine ⟨v, rfl, ?_⟩
      cases hu : pyUnpack13 v with
      | some fields => exact pyUnpack13_pyLen v fields hu
      | none =>
        exfalso
        by_cases ht : pyTruthy v = true
        · cases hl : pyLen v with
          | none => simp [get_race_state, ht, hl] at h
          | some n =>
            by_cases hn : n < 13
            · simp [get_race_state, ht, hl, hn] at h
            · simp [get_race_state, ht, hl, hn, hu] at h
        · have hf : pyTruthy v = false := by
            revert ht
            cases pyTruthy v <;> simp
          simp [get_race_state, hf] at h

/-- Witness for C7: a missing response and a short (3-field) response both
yield `none`. -/
theorem get_race_state_decode_robust_witness :
    get_race_state 1 none = none ∧
    get_race_state 1 (some (JValue.jlist [JValue.jint 1, JValue.jbool true,
      JValue.jbool false])) = none :=
  ⟨(get_race_state_decode_robust 1 none).1 rfl,
   (get_race_state_decode_robust 1
      (some (JValue.jlist [JValue.jint 1, JValue.jbool true, JValue.jbool false]))).2.2.1
      (JValue.jlist [JValue.jint 1, JValue.jbool true, JValue.jbool false]) 3
      rfl rfl (by decide)⟩

/-- C8: `get_active_races` returns the empty list on a transport exception,
on an unparseable view response, and on any failure inside its `try` block,
and its result after a transport failure is identical to its result on a
genuinely empty active set. -/
theorem get_active_races_failure_empty :
    (∀ e : Unit, get_active_races (Except.error e) = []) ∧
    get_active_races (Except.ok none) = [] ∧
    (∀ v, get_active_races_body (some v) = Except.error () →
      get_active_races (Except.ok (some v)) = []) ∧
    get_active_races (Except.error ()) =
      get_active_races (Except.ok (some (JValue.jlist [JValue.jlist []]))) := by
  refine ⟨fun e => rfl, rfl, ?_, rfl⟩
  intro v h
  simp [get_active_races, h]

/-- Witness for C8: a response whose subscription raises (a bare integer)
is mapped to the empty list. -/
theorem get_active_races_failure_empty_witness :
    get_active_races (Except.ok (some (JValue.jint 5))) = [] :=
  get_active_races_failure_empty.2.2.1 (JValue.jint 5) rfl

/-- C9: `parse_option_u64` is total (always an integer or `none`, never an
exception), and any input that is not a dict whose `vec` key holds a
non-empty list yields `none`; conversely, whenever it yields an integer,
the input was such a dict and the integer is the `int()` conversion of the
list's first element. -/
theorem parse_option_u64_total_shape (opt : JValue) :
    (parse_option_u64 opt = none ∨ ∃ n, parse_option_u64 opt = some n) ∧
    ((∀ fs x rest, opt = JValue.jdict fs →
        List.lookup vecKey fs = some (JValue.jlist (x :: rest)) → False) →
      parse_option_u64 opt = none) ∧
    (∀ n, parse_option_u64 opt = some n →
      ∃ fs x rest, opt = JValue.jdict fs ∧
        List.lookup vecKey fs = some (JValue.jlist (x :: rest)) ∧
        pyInt x = some n) := by
  refine ⟨?_, ?_, ?_⟩
  · cases h : parse_option_u64 opt with
    | none => exact Or.inl rfl
    | some n => exact Or.inr ⟨n, rfl⟩
  · intro hno
    cases opt with
    | jnull => rfl
    | jbool b => rfl
    | jint n => rfl
    | jstr s => rfl
    | jlist l => rfl
    | jdict fs =>
      cases hl : List.lookup vecKey fs with
      | none => simp [parse_option_u64, hl]
      | some v =>
        cases v with
        | jnull => simp [parse_option_u64, hl, pyTruthy]
        | jbool b => cases b <;> simp [parse_option_u64, hl, pyTruthy]
        | jint m =>
          by_cases hm : m = 0 <;> simp [parse_option_u64, hl, pyTruthy, hm]
        | jstr t =>
          by_cases hts : t.length = 0 <;> simp [parse_option_u64, hl, pyTruthy, hts]
        | jdict fs2 =>
          by_cases hd : fs2.length = 0 <;> simp [parse_option_u64, hl, pyTruthy, hd]
        | jlist l =>
          cases l with
          | nil => simp [parse_option_u64, hl, pyTruthy]
          | cons x rest => exact (hno fs x rest rfl hl).elim
  · intro n h
    cases opt with
    | jnull => simp [parse_option_u64] at h
    | jbool b => simp [parse_option_u64] at h
    | jint m => simp [parse_option_u64] at h
    | jstr s => simp [parse_option_u64] at h
    | jlist l => simp [parse_option_u64] at h
    | jdict fs =>
      cases hl : List.lookup vecKey fs with
      | none => simp [parse_option_u64, hl] at h
      | some v =>
        cases v with
        | jnull => simp [parse_option_u64, hl, pyTruthy] at h
        | jbool b => cases b <;> simp [parse_option_u64, hl, pyTruthy] at h
        | jint m =>
          by_cases hm : m = 0 <;> simp [parse_option_u64, hl, pyTruthy, hm] at h
        | jstr t =>
          by_cases hts : t.length = 0 <;>
            simp [parse_option_u64, hl, pyTruthy, hts] at h
        | jdict fs2 =>
          by_cases hd : fs2.length = 0 <;>
            simp [parse_option_u64, hl, pyTruthy, hd] at h
        | jlist l =>
          cases l with
          | nil => simp [parse_option_u64, hl, pyTruthy] at h
          | cons x rest =>
            refine ⟨fs, x, rest, rfl, hl, ?_⟩
            simpa [parse_option_u64, hl, pyTruthy] using h

/-- Witness for C9: the canonical present encoding, a dict whose `vec`
holds the one-element list `[7]`, parses to `7`. -/
theorem parse_option_u64_total_shape_witness :
    ∃ fs x rest,
      JValue.jdict [(vecKey, JValue.jlist [JValue.jint 7])] = JValue.jdict fs ∧
      List.lookup vecKey fs = some (JValue.jlist (x :: rest)) ∧
      pyInt x = some 7 :=
  (parse_option_u64_total_shape
    (JValue.jdict [(vecKey, JValue.jlist [JValue.jint 7])])).2.2 7 (by decide)

/-- C10: the `/health` endpoint's `ok` field is the constant `true`
whatever the background task's state, and `bot_running` is `true`
exactly when the task exists and is not done. -/
theorem health_endpoint_spec (task : Option BotTask) (addr : String) :
    (health task addr).ok = true ∧
    ((health task addr).bot_running = true ↔
      ∃ t, task = some t ∧ t.done = false) := by
  cases task with
  | none => simp [health]
  | some t => simp [health]

/-- Sanity check that the decoding path is not vacuous: a well-formed
13-field view response decodes to the expected `RaceState`. -/
lemma get_race_state_decodes_full_response :
    get_race_state 7 (some (JValue.jlist
      [JValue.jint 7, JValue.jstr ("0xabc"), JValue.jint 1, JValue.jbool false,
       JValue.jbool false, JValue.jint 0, JValue.jlist [],
       JValue.jlist [JValue.jint 1, JValue.jint 2], JValue.jlist [],
       JValue.jint 0, JValue.jint 0,
       JValue.jdict [(vecKey, JValue.jlist [JValue.jint 123])],
       JValue.jdict [(vecKey, JValue.jlist [])]])) =
      some { race_id := 7, race_started := false, race_finished := false,
             race_type := 1, current_round := 0, entries_count := 2,
             start_time := some 123, creator := some ("0xabc") } := by
  decide
